import Mathlib

/-!
Shallow embedding of the snake game simulation core in src/main.py.

Positions are integer pairs (pygame Vector2 values are always whole numbers
here).  The pygame random source is modelled by an extra Nat parameter
selecting an element of the list of free cells; raising an exception
(random.choice on an empty list) is modelled by returning none.
-/

namespace PygameSnake

/-- Axis of a direction, from pygskin.direction (spec section 4.1). -/
inductive Axis where
  | HORIZONTAL
  | VERTICAL
deriving DecidableEq

/-- The four cardinal directions, from pygskin.direction (spec section 4.1):
unit screen vector and axis classification. -/
inductive Direction where
  | UP
  | DOWN
  | LEFT
  | RIGHT
deriving DecidableEq

def Direction.axis : Direction → Axis
  | .UP => .VERTICAL
  | .DOWN => .VERTICAL
  | .LEFT => .HORIZONTAL
  | .RIGHT => .HORIZONTAL

def Direction.vector : Direction → Int × Int
  | .UP => (0, -1)
  | .DOWN => (0, 1)
  | .LEFT => (-1, 0)
  | .RIGHT => (1, 0)

def Direction.name : Direction → String
  | .UP => "UP"
  | .DOWN => "DOWN"
  | .LEFT => "LEFT"
  | .RIGHT => "RIGHT"

def padd (a b : Int × Int) : Int × Int := (a.1 + b.1, a.2 + b.2)

def psub (a b : Int × Int) : Int × Int := (a.1 - b.1, a.2 - b.2)

def vmul (v : Int × Int) (n : Int) : Int × Int := (v.1 * n, v.2 * n)

/-- A snake body segment: position plus the direction it moved into its cell. -/
structure Segment where
  pos : Int × Int
  direction : Direction
deriving DecidableEq

instance : Inhabited Segment := ⟨⟨(0, 0), Direction.RIGHT⟩⟩

/-- Segment.project: the segment one step ahead in its own direction. -/
def Segment.project (s : Segment) : Segment :=
  { pos := padd s.pos s.direction.vector, direction := s.direction }

/-- The snake: buffered next direction and the head-first segment list. -/
structure Snake where
  next_direction : Direction
  segments : List Segment
deriving DecidableEq

/-- Snake.reset: all-RIGHT body of 3 segments trailing left from pos. -/
def Snake.reset (pos : Int × Int) : Snake :=
  { next_direction := Direction.RIGHT,
    segments := (List.range 3).map fun i =>
      { pos := psub pos (vmul Direction.RIGHT.vector (Int.ofNat i)),
        direction := Direction.RIGHT } }

/-- Snake.head: segments[0].  The source raises IndexError on an empty
snake (a precondition violation per spec section 7); headI picks the
default segment there. -/
def Snake.head (s : Snake) : Segment := s.segments.headI

/-- Snake.occupied: positions of all segments.  The source builds a set;
a list with the same members is used here (only membership matters). -/
def Snake.occupied (s : Snake) : List (Int × Int) := s.segments.map Segment.pos

/-- Snake.grow: overwrite the head facing with the buffered direction and
insert the projected head at index 0.  On an empty snake the source would
raise IndexError; that unreachable case is mapped to the identity. -/
def Snake.grow (s : Snake) : Snake :=
  match s.segments with
  | [] => s
  | h :: t =>
    let h2 : Segment := { h with direction := s.next_direction }
    { s with segments := h2.project :: h2 :: t }

/-- Snake.shrink: drop the tail (last) segment. -/
def Snake.shrink (s : Snake) : Snake :=
  { s with segments := s.segments.dropLast }

/-- Snake.turn: buffer the direction only when its axis differs from the
axis the head is currently facing. -/
def Snake.turn (s : Snake) (d : Direction) : Snake :=
  if d.axis ≠ s.head.direction.axis then { s with next_direction := d } else s

/-- Snake.hit_self: some segment other than the head (index 0) has the
head position. -/
def Snake.hit_self (s : Snake) : Bool :=
  s.segments.tail.any fun seg => decide (seg.pos = s.head.pos)

/-- The blit keys of Snake.draw, in blit order: walking the non-head
segments tail-first with a running previous name seeded with TAIL, then
the head key from the last previous name. -/
def tagsFrom : String → List Segment → List String
  | previous, [] => ["HEAD " ++ previous]
  | previous, seg :: rest =>
    (previous ++ " " ++ seg.direction.name) :: tagsFrom seg.direction.name rest

def Snake.spriteTags (s : Snake) : List String :=
  tagsFrom "TAIL" s.segments.tail.reverse

/-- Head sprite keys of the SPRITESHEET name map. -/
def headTagNames : List String :=
  ["HEAD UP", "HEAD DOWN", "HEAD LEFT", "HEAD RIGHT"]

/-- Tail sprite keys of the SPRITESHEET name map. -/
def tailTagNames : List String :=
  ["TAIL UP", "TAIL DOWN", "TAIL LEFT", "TAIL RIGHT"]

/-- Corner-turn sprite keys of the SPRITESHEET name map (the pairs of two
distinct direction names). -/
def cornerTagNames : List String :=
  ["UP LEFT", "UP RIGHT", "DOWN LEFT", "DOWN RIGHT",
   "LEFT UP", "LEFT DOWN", "RIGHT UP", "RIGHT DOWN"]

namespace World

/-- World.__contains__ via pygame Rect.collidepoint on Rect((0,0),(25,18)):
left and top edges inclusive, right and bottom exclusive. -/
def contains (p : Int × Int) : Bool :=
  decide (0 ≤ p.1) && decide (p.1 < 25) && decide (0 ≤ p.2) && decide (p.2 < 18)

/-- World._cells: every cell of the 25 x 18 grid. -/
def cells : List (Int × Int) :=
  (List.range 18).flatMap fun y =>
    (List.range 25).map fun x => ((Int.ofNat x), (Int.ofNat y))

/-- World.random_pos: random.choice over the list of cells not occupied.
The random source is the index k; the IndexError random.choice raises on
an empty list is the none result. -/
def random_pos (occupied : List (Int × Int)) (k : Nat) : Option (Int × Int) :=
  let free := cells.filter fun c => decide (c ∉ occupied)
  free.get? (k % free.length)

end World

/-- Events published by the snake during a move: die (plays the die sound
and sets game_over through the subscriptions wired in Game.setup) and eat
(plays the eat sound and increments the score). -/
inductive SnakeEvent where
  | die
  | eat
deriving DecidableEq

/-- Game state: the mutable fields of the Game object that the simulation
core touches (Score.value is inlined as score). -/
structure Game where
  snake : Snake
  food : Int × Int
  paused : Bool
  game_over : Bool
  score : Nat
  running : Bool
deriving DecidableEq

/-- Game.reset: zero the score, respawn the snake at the default origin,
place food on a free cell, pause, clear game_over. -/
def Game.reset (g : Game) (k : Nat) : Option Game :=
  let snake := Snake.reset (0, 0)
  match World.random_pos snake.occupied k with
  | none => none
  | some p =>
    some { g with score := 0, snake := snake, food := p,
                  paused := true, game_over := false }

/-- Game.move_snake: one simulation tick.  Returns the new state and the
snake events fired; none models the IndexError of food placement with no
free cell. -/
def Game.move_snake (g : Game) (k : Nat) : Option (Game × List SnakeEvent) :=
  if g.paused || g.game_over then some (g, [])
  else
    let snake := g.snake.grow
    if snake.hit_self || !(World.contains snake.head.pos) then
      some ({ g with snake := snake, game_over := true }, [SnakeEvent.die])
    else if snake.head.pos = g.food then
      match World.random_pos (snake.occupied ++ [g.food]) k with
      | none => none
      | some p =>
        some ({ g with snake := snake, food := p, score := g.score + 1 },
              [SnakeEvent.eat])
    else
      some ({ g with snake := snake.shrink }, [])

/-- Keyboard keys the update loop distinguishes. -/
inductive Key where
  | up
  | down
  | left
  | right
  | p
  | other
deriving DecidableEq

/-- DIRECTION_KEYS.get. -/
def directionKey : Key → Option Direction
  | .up => some Direction.UP
  | .down => some Direction.DOWN
  | .left => some Direction.LEFT
  | .right => some Direction.RIGHT
  | .p => none
  | .other => none

/-- Frame events fed to Game.update.  keydown and update carry the index
consumed by a food placement they may trigger. -/
inductive GEvent where
  | keydown (key : Key) (rng : Nat)
  | quit
  | update (rng : Nat)
deriving DecidableEq

/-- Game.update: the per-frame event loop.  A keydown during game_over
returns out of the loop through Game.reset; quit breaks the loop; an
update timer event runs move_snake. -/
def Game.update (g : Game) : List GEvent → Option Game
  | [] => some g
  | e :: rest =>
    match e with
    | GEvent.keydown key rng =>
      if g.game_over then g.reset rng
      else
        let g1 := if key = Key.p then { g with paused := !g.paused } else g
        let g2 :=
          if !g1.paused then
            match directionKey key with
            | some d => { g1 with snake := g1.snake.turn d }
            | none => g1
          else g1
        Game.update g2 rest
    | GEvent.quit => some { g with running := false }
    | GEvent.update rng =>
      match g.move_snake rng with
      | none => none
      | some (g2, _) => Game.update g2 rest

/-! ## Helper lemmas -/

/-- A successful food placement lands on a grid cell outside the excluded
collection. -/
theorem random_pos_mem {occ : List (Int × Int)} {k : Nat} {p : Int × Int}
    (h : World.random_pos occ k = some p) : p ∈ World.cells ∧ p ∉ occ := by
  simp only [World.random_pos] at h
  have hmem := List.get?_mem h
  have hsplit := List.mem_filter.mp hmem
  exact ⟨hsplit.1, by simpa using hsplit.2⟩

/-- A paused or game-over state ignores a tick entirely. -/
theorem move_snake_halted (g : Game) (k : Nat)
    (h : g.paused = true ∨ g.game_over = true) :
    g.move_snake k = some (g, []) := by
  rcases h with h | h <;> simp [Game.move_snake, h]

/-- Timer events keep arriving, but a paused or game-over state never
changes under them. -/
theorem update_ticks_halted (g : Game) (h : g.paused = true ∨ g.game_over = true)
    (ks : List Nat) : Game.update g (ks.map GEvent.update) = some g := by
  induction ks with
  | nil => rfl
  | cons k ks ih => simp [Game.update, move_snake_halted g k h, ih]

/-- Growing a nonempty snake adds exactly one segment at index 0: the old
head re-tagged with the buffered direction, projected forward. -/
theorem grow_segments (s : Snake) (h : Segment) (t : List Segment)
    (hs : s.segments = h :: t) :
    s.grow.segments =
      Segment.project { h with direction := s.next_direction }
        :: { h with direction := s.next_direction } :: t := by
  simp [Snake.grow, hs]

/-- Length bookkeeping for grow on a nonempty snake. -/
theorem grow_length (s : Snake) (hne : s.segments ≠ []) :
    s.grow.segments.length = s.segments.length + 1 := by
  obtain ⟨h, t, hs⟩ := List.exists_cons_of_ne_nil hne
  simp [grow_segments s h t hs, hs]

/-! ## Claim theorems -/

/-- C5: hit_self returns true if and only if some segment other than the
head occupies the head position, over the entire segment list (so on the
post-grow list the tail segment that a later shrink would remove still
counts, and a head on the cell the tail is about to vacate is a
collision). -/
theorem C5_hit_self_iff (s : Snake) :
    s.hit_self = true ↔ ∃ seg ∈ s.segments.tail, seg.pos = s.head.pos := by
  simp [Snake.hit_self, List.any_eq_true]

/-- C7: turn buffers the requested direction exactly when its axis differs
from the axis the head currently faces; on an equal axis the snake is
returned entirely unchanged, and the segment list is never touched by
turn. -/
theorem C7_turn_axis_filter (s : Snake) (d : Direction) :
    (d.axis ≠ s.head.direction.axis → s.turn d = { s with next_direction := d }) ∧
    (d.axis = s.head.direction.axis → s.turn d = s) ∧
    (s.turn d).segments = s.segments := by
  refine ⟨fun h => by simp [Snake.turn, h], fun h => by simp [Snake.turn, h], ?_⟩
  by_cases h : d.axis = s.head.direction.axis <;> simp [Snake.turn, h]

/-- Witness for C7: from the default respawn (facing RIGHT), UP is
buffered, while the 180-degree request LEFT leaves the snake unchanged. -/
theorem C7_turn_axis_filter_witness :
    (Snake.reset (0, 0)).turn Direction.UP =
      { Snake.reset (0, 0) with next_direction := Direction.UP } ∧
    (Snake.reset (0, 0)).turn Direction.LEFT = Snake.reset (0, 0) :=
  ⟨(C7_turn_axis_filter (Snake.reset (0, 0)) Direction.UP).1 (by decide),
   (C7_turn_axis_filter (Snake.reset (0, 0)) Direction.LEFT).2.1 (by decide)⟩

/-- C9: placing food when the occupied collection covers every grid cell
fails (random.choice raises IndexError on the empty candidate list,
modelled as none) rather than returning a cell. -/
theorem C9_no_free_cell_fails (occupied : List (Int × Int)) (k : Nat)
    (h : ∀ c ∈ World.cells, c ∈ occupied) :
    World.random_pos occupied k = none := by
  have hfree : World.cells.filter (fun c => !decide (c ∈ occupied)) = [] :=
    List.filter_eq_nil_iff.mpr fun c hc => by simp [h c hc]
  simp [World.random_pos, hfree]

/-- Witness for C9: with every cell of the grid occupied, food placement
returns no cell. -/
theorem C9_no_free_cell_fails_witness :
    World.random_pos World.cells 0 = none :=
  C9_no_free_cell_fails World.cells 0 fun _ hc => hc

/-- Concrete paused, not game-over state for the C10 witness. -/
def gPausedState : Game :=
  { snake := Snake.reset (0, 0), food := (5, 5), paused := true,
    game_over := false, score := 0, running := true }

/-- C10: while paused and not in game over, a direction-key press is
dropped by the update loop: the whole game state, in particular the
buffered direction and the segment list, is unchanged. -/
theorem C10_direction_key_dropped_while_paused (g : Game) (key : Key) (k : Nat)
    (hp : g.paused = true) (hgo : g.game_over = false)
    (hdir : (directionKey key).isSome = true) :
    Game.update g [GEvent.keydown key k] = some g := by
  have hkp : key ≠ Key.p := by cases key <;> simp_all [directionKey]
  simp [Game.update, hgo, hkp, hp]

/-- Witness for C10: a LEFT key press while paused leaves the concrete
state untouched. -/
theorem C10_direction_key_dropped_while_paused_witness :
    Game.update gPausedState [GEvent.keydown Key.left 0] = some gPausedState :=
  C10_direction_key_dropped_while_paused gPausedState Key.left 0 rfl rfl rfl

/-- C2: a tick fired while running whose post-grow head is outside the
grid or hits the body moves the round to game over with a die event, and
every later tick leaves the state unchanged (the gating that models the
stopped clock) until a key press arrives. -/
theorem C2_death_tick (g : Game) (k : Nat)
    (hp : g.paused = false) (hgo : g.game_over = false)
    (hdie : g.snake.grow.hit_self = true ∨
      World.contains g.snake.grow.head.pos = false) :
    g.move_snake k =
      some ({ g with snake := g.snake.grow, game_over := true },
            [SnakeEvent.die]) ∧
    ∀ ks : List Nat,
      Game.update { g with snake := g.snake.grow, game_over := true }
          (ks.map GEvent.update) =
        some { g with snake := g.snake.grow, game_over := true } := by
  constructor
  · rcases hdie with h | h <;> simp [Game.move_snake, hp, hgo, h]
  · intro ks
    exact update_ticks_halted _ (Or.inr rfl) ks

/-- Concrete snake one tick before the left wall, for the C2 witness. -/
def gLeftWall : Game :=
  { snake := { next_direction := Direction.LEFT,
               segments := [⟨(0, 5), Direction.LEFT⟩, ⟨(1, 5), Direction.LEFT⟩,
                            ⟨(2, 5), Direction.LEFT⟩] },
    food := (5, 5), paused := false, game_over := false, score := 0,
    running := true }

/-- The state after the fatal tick of gLeftWall. -/
def gDead : Game :=
  { gLeftWall with snake := gLeftWall.snake.grow, game_over := true }

/-- Witness for C2: driving into the left wall (head x becomes -1) fires
die, sets game over, and two further timer events change nothing. -/
theorem C2_death_tick_witness :
    gLeftWall.move_snake 0 = some (gDead, [SnakeEvent.die]) ∧
    Game.update gDead [GEvent.update 0, GEvent.update 1] = some gDead := by
  have h := C2_death_tick gLeftWall 0 rfl rfl (Or.inr (by decide))
  exact ⟨h.1, h.2 [0, 1]⟩

/-- C3: a tick fired while running whose post-grow head lands on the food
cell fires eat, adds 1 to the score, adds 1 to the snake length (the
shrink is skipped), and the replacement food cell is chosen outside the
occupied cells of the grown snake and differs from the old food cell. -/
theorem C3_eat_tick (g g' : Game) (evs : List SnakeEvent) (k : Nat)
    (hne : g.snake.segments ≠ [])
    (hp : g.paused = false) (hgo : g.game_over = false)
    (hhs : g.snake.grow.hit_self = false)
    (hin : World.contains g.snake.grow.head.pos = true)
    (hfood : g.snake.grow.head.pos = g.food)
    (hstep : g.move_snake k = some (g', evs)) :
    evs = [SnakeEvent.eat] ∧
    g'.score = g.score + 1 ∧
    g'.snake = g.snake.grow ∧
    g'.snake.segments.length = g.snake.segments.length + 1 ∧
    g'.food ∉ g'.snake.occupied ∧
    g'.food ≠ g.food := by
  have hin2 : World.contains g.food = true := hfood ▸ hin
  cases hrp : World.random_pos (g.snake.grow.occupied ++ [g.food]) k with
  | none =>
    have hnone : g.move_snake k = none := by
      simp [Game.move_snake, hp, hgo, hhs, hin2, hfood, hrp]
    rw [hnone] at hstep
    simp at hstep
  | some p =>
    have hval : g.move_snake k =
        some ({ g with snake := g.snake.grow, food := p, score := g.score + 1 },
              [SnakeEvent.eat]) := by
      simp [Game.move_snake, hp, hgo, hhs, hin2, hfood, hrp]
    rw [hval] at hstep
    simp only [Option.some.injEq, Prod.mk.injEq] at hstep
    obtain ⟨hg', hevs⟩ := hstep
    subst hg'
    subst hevs
    have hmem := random_pos_mem hrp
    have hnot : p ∉ g.snake.grow.occupied ∧ p ≠ g.food := by
      have hm := hmem.2
      simp only [List.mem_append, List.mem_singleton, not_or] at hm
      exact hm
    exact ⟨rfl, rfl, rfl, grow_length g.snake hne, hnot.1, hnot.2⟩

/-- Concrete state with the food directly ahead of the head, for the C3
witness. -/
def gEat : Game :=
  { snake := Snake.reset (0, 0), food := (1, 0), paused := false,
    game_over := false, score := 0, running := true }

/-- The state after the eat tick of gEat. -/
def gAfterEat : Game :=
  { snake := (Snake.reset (0, 0)).grow, food := (2, 0), paused := false,
    game_over := false, score := 1, running := true }

set_option maxRecDepth 4000 in
/-- Witness for C3: eating the food ahead adds one to score and length and
re-places the food outside the snake, away from the old cell. -/
theorem C3_eat_tick_witness :
    gEat.move_snake 0 = some (gAfterEat, [SnakeEvent.eat]) ∧
    gAfterEat.score = gEat.score + 1 ∧
    gAfterEat.snake.segments.length = gEat.snake.segments.length + 1 ∧
    gAfterEat.food ∉ gAfterEat.snake.occupied ∧
    gAfterEat.food ≠ gEat.food := by
  have hstep : gEat.move_snake 0 = some (gAfterEat, [SnakeEvent.eat]) := by decide
  have h := C3_eat_tick gEat gAfterEat [SnakeEvent.eat] 0 (by decide) rfl rfl
    (by decide) (by decide) (by decide) hstep
  exact ⟨hstep, h.2.1, h.2.2.2.1, h.2.2.2.2.1, h.2.2.2.2.2⟩

/-- C4: a tick fired while running with no collision and no eat advances
the head one cell in the buffered direction, removes the tail segment,
and keeps the length unchanged. -/
theorem C4_ordinary_tick (g : Game) (k : Nat)
    (hne : g.snake.segments ≠ [])
    (hp : g.paused = false) (hgo : g.game_over = false)
    (hhs : g.snake.grow.hit_self = false)
    (hin : World.contains g.snake.grow.head.pos = true)
    (hfood : g.snake.grow.head.pos ≠ g.food) :
    g.move_snake k = some ({ g with snake := g.snake.grow.shrink }, []) ∧
    g.snake.grow.shrink.segments = g.snake.grow.segments.dropLast ∧
    g.snake.grow.shrink.segments.length = g.snake.segments.length ∧
    g.snake.grow.shrink.head.pos =
      padd g.snake.head.pos g.snake.next_direction.vector := by
  obtain ⟨h, t, hs⟩ := List.exists_cons_of_ne_nil hne
  refine ⟨by simp [Game.move_snake, hp, hgo, hhs, hin, hfood], rfl, ?_, ?_⟩
  · simp [Snake.shrink, grow_segments g.snake h t hs, hs]
  · simp [Snake.shrink, grow_segments g.snake h t hs, Snake.head, hs,
      Segment.project]

/-- Concrete default respawned state with the food elsewhere, for the C4
witness (end-to-end scenario A). -/
def gPlainTick : Game :=
  { snake := Snake.reset (0, 0), food := (5, 5), paused := false,
    game_over := false, score := 0, running := true }

/-- Witness for C4: one tick from the default respawn moves the head one
cell right and keeps the length at 3. -/
theorem C4_ordinary_tick_witness :
    gPlainTick.move_snake 0 =
      some ({ gPlainTick with snake := gPlainTick.snake.grow.shrink }, []) ∧
    gPlainTick.snake.grow.shrink.segments.length = 3 ∧
    gPlainTick.snake.grow.shrink.head.pos = (1, 0) := by
  have h := C4_ordinary_tick gPlainTick 0 (by decide) rfl rfl (by decide)
    (by decide) (by decide)
  exact ⟨h.1, by decide, by decide⟩

/-- Concrete game-over state for C1. -/
def gameOverState : Game :=
  { snake := Snake.reset (0, 0), food := (5, 5), paused := false,
    game_over := true, score := 7, running := true }

/-- The state the update loop produces from gameOverState on a key press. -/
def afterKeypress : Game :=
  { snake := Snake.reset (0, 0), food := (1, 0), paused := true,
    game_over := false, score := 0, running := true }

set_option maxRecDepth 4000 in
/-- Counterexample to C1 as stated: a key press in game over leaves the
paused flag set, so the round is not running and a subsequent tick does
not advance the snake (the state is returned unchanged). -/
theorem C1_counterexample :
    Game.update gameOverState [GEvent.keydown Key.other 0] = some afterKeypress ∧
    afterKeypress.paused = true ∧
    afterKeypress.move_snake 0 = some (afterKeypress, []) :=
  ⟨by decide, rfl, by decide⟩

/-- C1 amended: a key press while in game over triggers respawn (default
3-segment snake, food re-placed outside it), sets the score to 0 and
clears the game-over flag, but sets the paused flag, so the round enters
the paused state and subsequent ticks leave it unchanged until the pause
key is pressed. -/
theorem C1_gameover_keypress_respawns_paused (g g' : Game) (key : Key) (k : Nat)
    (hgo : g.game_over = true)
    (hres : Game.update g [GEvent.keydown key k] = some g') :
    g'.snake = Snake.reset (0, 0) ∧
    g'.score = 0 ∧
    g'.food ∉ g'.snake.occupied ∧
    g'.game_over = false ∧
    g'.paused = true ∧
    ∀ j : Nat, g'.move_snake j = some (g', []) := by
  have hres2 : g.reset k = some g' := by
    simpa [Game.update, hgo] using hres
  simp only [Game.reset] at hres2
  cases hrp : World.random_pos (Snake.reset (0, 0)).occupied k with
  | none =>
    rw [hrp] at hres2
    simp at hres2
  | some p =>
    rw [hrp] at hres2
    simp only [Option.some.injEq] at hres2
    subst hres2
    exact ⟨rfl, rfl, (random_pos_mem hrp).2, rfl, rfl,
      fun j => move_snake_halted _ j (Or.inl rfl)⟩

set_option maxRecDepth 4000 in
/-- Witness for the amended C1 at the concrete game-over state. -/
theorem C1_gameover_keypress_respawns_paused_witness :
    afterKeypress.snake = Snake.reset (0, 0) ∧ afterKeypress.score = 0 ∧
    afterKeypress.food ∉ afterKeypress.snake.occupied ∧
    afterKeypress.game_over = false ∧ afterKeypress.paused = true ∧
    ∀ j : Nat, afterKeypress.move_snake j = some (afterKeypress, []) :=
  C1_gameover_keypress_respawns_paused gameOverState afterKeypress Key.other 0
    rfl (by decide)

/-- C6: a respawn yields exactly 3 segments, all facing RIGHT, contiguous
along the horizontal axis with the head at index 0, buffered direction
RIGHT, and the food cell placed by the game reset is outside the occupied
cells of the respawned snake. -/
theorem C6_respawn_shape_and_food (pos : Int × Int) (g g' : Game) (k : Nat)
    (hr : g.reset k = some g') :
    (Snake.reset pos).segments.map Segment.direction =
      [Direction.RIGHT, Direction.RIGHT, Direction.RIGHT] ∧
    (Snake.reset pos).segments.map Segment.pos =
      [pos, (pos.1 - 1, pos.2), (pos.1 - 2, pos.2)] ∧
    (Snake.reset pos).next_direction = Direction.RIGHT ∧
    g'.snake = Snake.reset (0, 0) ∧
    g'.food ∉ g'.snake.occupied := by
  have hfood : g'.snake = Snake.reset (0, 0) ∧ g'.food ∉ g'.snake.occupied := by
    simp only [Game.reset] at hr
    cases hrp : World.random_pos (Snake.reset (0, 0)).occupied k with
    | none =>
      rw [hrp] at hr
      simp at hr
    | some p =>
      rw [hrp] at hr
      simp only [Option.some.injEq] at hr
      subst hr
      exact ⟨rfl, (random_pos_mem hrp).2⟩
  refine ⟨?_, ?_, rfl, hfood.1, hfood.2⟩
  · simp [Snake.reset, List.range_succ]
  · norm_num [Snake.reset, psub, vmul, Direction.vector, List.range_succ]

/-- Concrete pre-reset state for the C6 witness. -/
def gPreReset : Game :=
  { snake := { next_direction := Direction.UP,
               segments := [⟨(4, 4), Direction.UP⟩, ⟨(4, 5), Direction.UP⟩,
                            ⟨(4, 6), Direction.UP⟩] },
    food := (9, 9), paused := false, game_over := true, score := 5,
    running := true }

/-- The state after resetting gPreReset. -/
def gPostReset : Game :=
  { snake := Snake.reset (0, 0), food := (1, 0), paused := true,
    game_over := false, score := 0, running := true }

set_option maxRecDepth 4000 in
/-- Witness for C6 at origin (3, 4) and a concrete reset. -/
theorem C6_respawn_shape_and_food_witness :
    (Snake.reset (3, 4)).segments.map Segment.pos = [(3, 4), (2, 4), (1, 4)] ∧
    gPostReset.snake = Snake.reset (0, 0) ∧
    gPostReset.food ∉ gPostReset.snake.occupied := by
  have h := C6_respawn_shape_and_food (3, 4) gPreReset gPostReset 0 (by decide)
  exact ⟨by decide, h.2.2.2.1, h.2.2.2.2⟩

/-- C8: the sprite tags of the default respawned 3-segment snake hold
exactly one head key, one tail key and no corner key, and the tag
derivation reads nothing but the segment list: equal segment lists give
equal tag lists. -/
theorem C8_sprite_tags_default :
    ((Snake.reset (0, 0)).spriteTags.countP
        (fun t => decide (t ∈ headTagNames)) = 1 ∧
     (Snake.reset (0, 0)).spriteTags.countP
        (fun t => decide (t ∈ tailTagNames)) = 1 ∧
     (Snake.reset (0, 0)).spriteTags.countP
        (fun t => decide (t ∈ cornerTagNames)) = 0) ∧
    ∀ s1 s2 : Snake, s1.segments = s2.segments →
      s1.spriteTags = s2.spriteTags := by
  refine ⟨by decide, fun s1 s2 h => ?_⟩
  simp [Snake.spriteTags, h]

/-- Witness for C8: a snake differing only in the buffered direction
yields the same tag list as the default snake. -/
theorem C8_sprite_tags_default_witness :
    Snake.spriteTags { next_direction := Direction.UP,
                       segments := (Snake.reset (0, 0)).segments } =
      Snake.spriteTags (Snake.reset (0, 0)) :=
  C8_sprite_tags_default.2 _ _ rfl

end PygameSnake
